import Mathlib

/-!
# SonClouTRV control subsystem — shallow embedding

A shallow embedding of the control subsystem of the SonClouTRV Home
Assistant integration (`custom_components/soncloutrv/climate.py`):
the PID core (`_calculate_desired_valve_opening`), the shared room PID
state (`RoomPIDState`), the sudden-temperature-drop (window) detector
(`_async_sensor_changed`), the adaptive scheduler
(`_async_schedule_next_update`), the valve exercise sequence
(`async_trigger_valve_exercise` / `_async_exercise_step_2` /
`_async_exercise_step_3`), the warm-restart integral restore
(`async_added_to_hass`) and the Smart-Start integrator preload
(`async_set_temperature`).

Python floats are modelled as rationals (`ℚ`); timestamps are rationals
counting seconds.  `int(x)` on the non-negative values that occur here is
`Int.floor`.  Python truthiness of an optional float (`None` and `0.0`
are falsy) is modelled explicitly where the source relies on it.
-/

namespace SonClouTRV

/-- HVAC mode of the climate entity (`HVACMode.HEAT` / `HVACMode.OFF`). -/
inductive HVACMode where
  | heat
  | off
deriving DecidableEq, Repr

/-- Control mode (`CONTROL_MODE_BINARY` / `CONTROL_MODE_PROPORTIONAL` /
`CONTROL_MODE_PID` from `const.py`). -/
inductive ControlMode where
  | binary
  | proportional
  | pid
deriving DecidableEq, Repr

/-- Shared PID state for all climates in the same room
(`RoomPIDState.__init__`, climate.py lines 112–121). -/
structure RoomPIDState where
  integral_error : ℚ
  prev_error : ℚ
  last_calc_time : Option ℚ
  last_output : ℚ
deriving DecidableEq, Repr

/-- A freshly constructed `RoomPIDState` (all zeros, no timestamp). -/
def RoomPIDState.fresh : RoomPIDState :=
  { integral_error := 0, prev_error := 0, last_calc_time := none, last_output := 0 }

/-- The per-controller configuration used by
`_calculate_desired_valve_opening`. -/
structure ControllerConfig where
  kp : ℚ
  ki : ℚ
  kd : ℚ
  ka : ℚ
  hysteresis : ℚ
  max_valve_position : ℕ
deriving DecidableEq, Repr

/-- Result of one PID computation: the valve opening returned by
`_calculate_desired_valve_opening`, the updated shared room state, and the
debug terms stored in `_last_p` / `_last_i` / `_last_d` / `_last_ff`. -/
structure CalcResult where
  opening : ℤ
  state : RoomPIDState
  p : ℚ
  i : ℚ
  d : ℚ
  ff : ℚ
deriving DecidableEq, Repr

/-- `dt` as computed in climate.py lines 1093–1098: `0.0` on the first call
(no stored `last_calc_time`), otherwise `now - last_calc_time`. -/
def calcDt (st : RoomPIDState) (now : ℚ) : ℚ :=
  match st.last_calc_time with
  | none => 0
  | some t => now - t

/-- Error-dependent gain ladder of the proportional term
(climate.py lines 1105–1114). -/
def gainScale (absError : ℚ) : ℚ :=
  if absError > 9/5 then 2
  else if absError > 6/5 then 17/10
  else if absError > 7/10 then 7/5
  else if absError > 3/10 then 6/5
  else 1

/-- `effective_kp` (climate.py lines 1116–1121): `kp * gain_scale`, reduced
by the factor 0.8 when the room is too warm (`error < 0`). -/
def effectiveKp (kp error : ℚ) : ℚ :=
  let ek := kp * gainScale |error|
  if error < 0 then ek * (4/5) else ek

/-- Proportional term `p_term = effective_kp * error` (climate.py line 1123). -/
def pTerm (kp error : ℚ) : ℚ :=
  effectiveKp kp error * error

/-- Derivative term (climate.py lines 1155–1184): only computed when
`dt > 1.0`, and suppressed to `0` when `|d_term| > 100`
(setpoint-change spike protection). -/
def dTerm (kd dt error prevError : ℚ) : ℚ :=
  if dt > 1 then
    let dError := (error - prevError) / dt
    let d0 := kd * dError
    if |d0| > 100 then 0 else d0
  else 0

/-- Feed-forward term (climate.py lines 1195–1205): `ka * (target - outside)`
when `ka > 0`, the outside temperature is known and the delta is positive. -/
def ffTerm (ka target : ℚ) (outside : Option ℚ) : ℚ :=
  match outside with
  | none => 0
  | some o =>
    if ka > 0 ∧ target - o > 0 then ka * (target - o) else 0

/-- One step of the integral update (climate.py lines 1129–1149), given that
the update guard `dt > 0 ∧ dt < 3600 ∧ heating_on ∧ ki > 0` holds: decay by
0.9 inside the hysteresis band, accumulate `error * dt` up to `|error| ≤ 1`,
no build-up above, then clamp to the anti-windup bound `±100/ki`. -/
def integralStep (ki hysteresis error dt integral : ℚ) : ℚ :=
  let ie :=
    if |error| < hysteresis then integral * (9/10)
    else if |error| ≤ 1 then integral + error * dt
    else integral
  let maxIntegral := 100 / ki
  max (-maxIntegral) (min maxIntegral ie)

/-- `_calculate_desired_valve_opening` (climate.py lines 1064–1274) as a pure
function from the inputs it reads to the returned opening, the updated shared
`RoomPIDState` and the stored debug terms. -/
def calculateDesiredValveOpening (cfg : ControllerConfig)
    (current target outside : Option ℚ) (mode : HVACMode) (now : ℚ)
    (st : RoomPIDState) : CalcResult :=
  match current, target with
  | none, _ => ⟨0, st, 0, 0, 0, 0⟩
  | _, none => ⟨0, st, 0, 0, 0, 0⟩
  | some currentTemp, some targetTemp =>
    if cfg.max_valve_position = 0 then ⟨0, st, 0, 0, 0, 0⟩
    else
      let error := targetTemp - currentTemp
      let heatingOn := mode = HVACMode.heat
      let dt := calcDt st now
      let st1 := { st with last_calc_time := some now }
      let p_term := pTerm cfg.kp error
      let integralActive := dt > 0 ∧ dt < 3600 ∧ heatingOn ∧ cfg.ki > 0
      let st2 :=
        if integralActive then
          { st1 with integral_error :=
              integralStep cfg.ki cfg.hysteresis error dt st1.integral_error }
        else st1
      let i_term := cfg.ki * st2.integral_error
      let d_term := dTerm cfg.kd dt error st2.prev_error
      let st3 :=
        if error * st2.prev_error < 0 then { st2 with integral_error := 0 }
        else st2
      let st4 := { st3 with prev_error := error }
      let ff_term := ffTerm cfg.ka targetTemp outside
      let rawOutput := p_term + i_term + d_term + ff_term
      let desiredPercent := max 0 (min 100 rawOutput)
      let st5 := { st4 with last_output := desiredPercent }
      let finalDesired : ℤ :=
        ⌊desiredPercent / 100 * (cfg.max_valve_position : ℚ)⌋
      let finalDesired :=
        if error < -cfg.hysteresis then 0
        else if error > cfg.hysteresis ∧ finalDesired = 0 ∧
            0 < cfg.max_valve_position then 1
        else finalDesired
      ⟨finalDesired, st5, p_term, i_term, d_term, ff_term⟩

/-! ## Window (sudden-temperature-drop) detector -/

/-- `WINDOW_DROP_WINDOW` (climate.py line 133): look-back window in seconds
for the sudden-drop detection. -/
def windowDropWindow : ℚ := 300

/-- A temperature sample of the bounded history: value and timestamp
(`_temp_history` / `_temp_time_history`). -/
structure TempSample where
  value : ℚ
  time : ℚ
deriving DecidableEq, Repr

/-- The sudden-drop decision of `_async_sensor_changed`
(climate.py lines 644–669), for a sensor transition with valid old and new
values: a single-step drop of at least `window_drop_threshold`, or a drop of
at least `window_drop_threshold` below the maximum sample value within the
trailing `WINDOW_DROP_WINDOW` seconds of the history. -/
def suddenDropDetected (dropThreshold oldTemp newTemp : ℚ)
    (history : List TempSample) (now : ℚ) : Bool :=
  let delta := newTemp - oldTemp
  let single := decide (delta ≤ -dropThreshold)
  let windowStart := now - windowDropWindow
  let recentValues := (history.filter (fun s => decide (windowStart ≤ s.time))).map TempSample.value
  let window :=
    match recentValues.max? with
    | none => false
    | some recentMax => decide (dropThreshold ≤ recentMax - newTemp)
  single || window

/-- The window-freeze related fields of the controller state mutated by
`_async_sensor_changed` on a detected drop (climate.py lines 675–687). -/
structure WindowState where
  window_freeze_active : Bool
  window_freeze_start : Option ℚ
  last_set_valve_opening : ℤ
deriving DecidableEq, Repr

/-- Effect of `_async_sensor_changed` (climate.py lines 675–687) on the
window-freeze state for a new sample with valid old and new values: on trigger
the freeze is activated, its start time recorded, and the valve commanded to
0 (the command is skipped when the last commanded opening is already 0). -/
def onSensorSample (dropThreshold oldTemp newTemp : ℚ)
    (history : List TempSample) (now : ℚ) (ws : WindowState) : WindowState :=
  if suddenDropDetected dropThreshold oldTemp newTemp history now then
    { window_freeze_active := true
      window_freeze_start := some now
      last_set_valve_opening :=
        if ws.last_set_valve_opening ≠ 0 then 0 else ws.last_set_valve_opening }
  else ws

/-! ## Adaptive scheduler -/

/-- Python truthiness of an optional float: `None` and `0.0` are falsy. -/
def truthy : Option ℚ → Bool
  | none => false
  | some x => decide (x ≠ 0)

/-- The interval chosen by `_async_schedule_next_update`
(climate.py lines 818–834): the base interval
`_min_valve_update_interval`, relaxed to 1800 s when current and target
temperature are truthy, `|target - current| < 0.2`, the controller is not
exercising and the control mode is PID. -/
def nextUpdateInterval (current target : Option ℚ) (isExercising : Bool)
    (mode : ControlMode) (minValveUpdateInterval : ℕ) : ℕ :=
  if truthy current && truthy target &&
      decide (|target.getD 0 - current.getD 0| < 1/5) && !isExercising then
    if mode = ControlMode.pid then 1800 else minValveUpdateInterval
  else minValveUpdateInterval

/-! ## Entity-level state: warm restart and Smart-Start preload -/

/-- The entity-local PID mirror together with the shared room state:
`self._integral_error` is only a debug mirror of the room state, refreshed
by every compute call (climate.py lines 1207–1214), while the PID reads and
writes `RoomPIDState.integral_error` exclusively. -/
structure EntityPidView where
  integral_error : ℚ
  room : RoomPIDState
deriving DecidableEq, Repr

/-- A freshly initialised entity view (climate.py line 301) over a fresh
room state. -/
def EntityPidView.fresh : EntityPidView :=
  { integral_error := 0, room := RoomPIDState.fresh }

/-- The integral restore of `async_added_to_hass`
(climate.py lines 477–483): the persisted value is written to the
entity-local `_integral_error` field only. -/
def restoreIntegral (e : EntityPidView) (persisted : ℚ) : EntityPidView :=
  { e with integral_error := persisted }

/-- The Smart-Start integrator preload of `async_set_temperature`
(climate.py lines 1615–1628): when the current temperature is truthy, the
target is raised more than 1 °C above it, the control mode is PID and
`ki > 0`, boost the entity-local `_integral_error` to `20 / ki` if it is
below that value. -/
def smartStartPreload (e : EntityPidView) (current : Option ℚ)
    (newTarget : ℚ) (mode : ControlMode) (ki : ℚ) : EntityPidView :=
  if truthy current then
    let diff := newTarget - current.getD 0
    if diff > 1 ∧ mode = ControlMode.pid then
      if ki > 0 then
        if e.integral_error < 20 / ki then
          { e with integral_error := 20 / ki }
        else e
      else e
    else e
  else e

/-- A compute call seen at the entity level: the room state is taken from and
written back to the shared registry entry, and the entity-local mirror
`_integral_error` is overwritten from the room state
(climate.py lines 1089 and 1207–1214). -/
def entityCompute (cfg : ControllerConfig) (current target outside : Option ℚ)
    (mode : HVACMode) (now : ℚ) (e : EntityPidView) : CalcResult × EntityPidView :=
  let r := calculateDesiredValveOpening cfg current target outside mode now e.room
  (r, { integral_error := r.state.integral_error, room := r.state })

/-! ## Valve exercise sequence -/

/-- The controller fields touched by the valve exercise
(`async_trigger_valve_exercise` and its steps): the re-entrancy flag, the
reported valve position, the preset mode and the last commanded opening. -/
structure ExerciseState where
  is_exercising : Bool
  valve_position : ℤ
  preset_mode : ℕ
  last_set_valve_opening : ℤ
deriving DecidableEq, Repr

/-- `_async_set_valve_opening` (climate.py lines 1340–1424) restricted to the
fields of `ExerciseState`: the opening is clamped to `[0,100]`, recorded as
the last commanded opening and mirrored into the reported valve position. -/
def setValveOpening (s : ExerciseState) (opening : ℤ) : ExerciseState :=
  let o := max 0 (min 100 opening)
  { s with last_set_valve_opening := o, valve_position := o }

/-- `async_trigger_valve_exercise` (climate.py lines 1686–1719): rejected when
already exercising; otherwise the original position and preset are captured,
the flag is set and the valve fully opened (100 %).  Returns the captured
arguments passed on to step 2. -/
def triggerValveExercise (s : ExerciseState) :
    ExerciseState × Option (ℤ × ℕ) :=
  if s.is_exercising then (s, none)
  else
    let originalPosition := s.valve_position
    let originalPreset := s.preset_mode
    (setValveOpening { s with is_exercising := true } 100,
      some (originalPosition, originalPreset))

/-- `_async_exercise_step_2` (climate.py lines 1721–1736): fully close the
valve (0 %); the captured arguments are passed through unchanged. -/
def exerciseStep2 (s : ExerciseState) : ExerciseState :=
  setValveOpening s 0

/-- `_async_exercise_step_3` (climate.py lines 1742–1756): restore the
captured original position, re-apply the captured preset and clear the
exercising flag. -/
def exerciseStep3 (args : ℤ × ℕ) (s : ExerciseState) : ExerciseState :=
  let s1 := setValveOpening s args.1
  { s1 with preset_mode := args.2, is_exercising := false }

/-- A complete run of the exercise sequence: trigger, then (when not
rejected) step 2 and step 3 with the captured arguments. -/
def runExercise (s : ExerciseState) : ExerciseState :=
  match triggerValveExercise s with
  | (s1, none) => s1
  | (s1, some args) => exerciseStep3 args (exerciseStep2 s1)

/-! ## Call sequences against the shared room state -/

/-- The inputs of one call of `_calculate_desired_valve_opening` that are not
part of the shared room state. -/
structure CallInput where
  current : Option ℚ
  target : Option ℚ
  outside : Option ℚ
  mode : HVACMode
  now : ℚ
deriving DecidableEq, Repr

/-- Apply one compute call to the shared room state. -/
def applyCall (cfg : ControllerConfig) (st : RoomPIDState) (c : CallInput) :
    RoomPIDState :=
  (calculateDesiredValveOpening cfg c.current c.target c.outside c.mode c.now st).state

/-- Run a sequence of compute calls against an initially fresh shared room
state, as the controllers of a room do over time. -/
def runCalls (cfg : ControllerConfig) (calls : List CallInput) : RoomPIDState :=
  calls.foldl (applyCall cfg) RoomPIDState.fresh

/-! ## Helper lemmas -/

/-- The scaled-and-floored valve opening (climate.py line 1228) is never
negative. -/
theorem floor_scaled_nonneg (x : ℚ) (n : ℕ) :
    0 ≤ ⌊max 0 (min 100 x) / 100 * (n : ℚ)⌋ :=
  Int.floor_nonneg.mpr
    (mul_nonneg (div_nonneg (le_max_left 0 _) (by norm_num)) (Nat.cast_nonneg n))

/-- The minimal-opening override (climate.py lines 1236–1237) yields at least
1 whenever the error exceeds the hysteresis and the valve is enabled. -/
theorem min_open_aux (h : ℚ) (maxv : ℕ) (e R : ℚ) (he : e > h) (hm : 0 < maxv) :
    1 ≤ (if e > h ∧ ⌊max 0 (min 100 R) / 100 * (maxv : ℚ)⌋ = 0 ∧ 0 < maxv then 1
         else ⌊max 0 (min 100 R) / 100 * (maxv : ℚ)⌋) := by
  split
  · exact le_refl 1
  · rename_i hs
    have h0 := floor_scaled_nonneg R maxv
    have hne : ¬ (⌊max 0 (min 100 R) / 100 * (maxv : ℚ)⌋ = 0) :=
      fun hf => hs ⟨he, hf, hm⟩
    omega

/-- Clamping to `[-B, B]` lands inside `[-B, B]` when `0 ≤ B`. -/
theorem abs_clamp_le (B x : ℚ) (hB : 0 ≤ B) : |max (-B) (min B x)| ≤ B :=
  abs_le.mpr ⟨le_max_left _ _, max_le (by linarith) (min_le_left _ _)⟩

/-- The integral update of climate.py lines 1129–1144 always ends inside the
anti-windup bound `±100/ki` when `ki > 0`. -/
theorem integralStep_bound (ki h e dt x : ℚ) (hki : 0 < ki) :
    |integralStep ki h e dt x| ≤ 100 / ki := by
  have hB : (0:ℚ) ≤ 100 / ki := by positivity
  unfold integralStep
  exact abs_clamp_le _ _ hB

/-- One compute call preserves the anti-windup bound on the shared room
integral when `ki > 0`. -/
theorem integral_bound_step (cfg : ControllerConfig) (hki : 0 < cfg.ki)
    (c : CallInput) (st : RoomPIDState)
    (h : |st.integral_error| ≤ 100 / cfg.ki) :
    |(applyCall cfg st c).integral_error| ≤ 100 / cfg.ki := by
  have hB : (0:ℚ) ≤ 100 / cfg.ki := by positivity
  obtain ⟨cur, tgt, out, mode, now⟩ := c
  unfold applyCall
  match cur, tgt with
  | none, _ => simpa [calculateDesiredValveOpening]
  | some c', none => simpa [calculateDesiredValveOpening]
  | some c', some t =>
    by_cases h0 : cfg.max_valve_position = 0
    · simpa [calculateDesiredValveOpening, h0]
    · simp only [calculateDesiredValveOpening, if_neg h0]
      split_ifs <;>
        simp_all [integralStep_bound _ _ _ _ _ hki, abs_nonneg, hB]

/-- `List.max?` on rationals returns a member that bounds every member. -/
theorem rat_max?_eq_some_iff {a : ℚ} {xs : List ℚ} :
    xs.max? = some a ↔ a ∈ xs ∧ ∀ b ∈ xs, b ≤ a :=
  have : Std.Antisymm (fun x1 x2 : ℚ => x1 ≤ x2) := ⟨fun h h' => le_antisymm h h'⟩
  List.max?_eq_some_iff (fun _ => le_refl _) max_choice (fun _ _ _ => max_le_iff)

/-! ## Claim theorems -/

/-- C1: for every compute call with current and target temperature present
(and a non-negatively configured hysteresis, as the options UI enforces),
if `error = target - current < -hysteresis` the returned opening is 0, and
if `error > hysteresis` and `max_valve_position > 0` the returned opening is
at least 1, regardless of the P/I/D/FF values. -/
theorem hysteresis_override_closed_or_min_open (cfg : ControllerConfig)
    (c t : ℚ) (outside : Option ℚ) (mode : HVACMode) (now : ℚ)
    (st : RoomPIDState) (hh : 0 ≤ cfg.hysteresis) :
    (t - c < -cfg.hysteresis →
      (calculateDesiredValveOpening cfg (some c) (some t) outside mode now st).opening
        = 0) ∧
    (t - c > cfg.hysteresis → 0 < cfg.max_valve_position →
      1 ≤ (calculateDesiredValveOpening cfg (some c) (some t) outside mode now st).opening) := by
  constructor
  · intro he
    by_cases h0 : cfg.max_valve_position = 0
    · simp [calculateDesiredValveOpening, h0]
    · simp only [calculateDesiredValveOpening, if_neg h0]
      rw [if_pos he]
  · intro he hm
    have h0 : cfg.max_valve_position ≠ 0 := Nat.pos_iff_ne_zero.mp hm
    have hne : ¬ (t - c < -cfg.hysteresis) := by intro h; linarith
    simp only [calculateDesiredValveOpening, if_neg h0]
    rw [if_neg hne]
    exact min_open_aux cfg.hysteresis cfg.max_valve_position (t - c) _ he hm

/-- Witness for C1: with the default configuration, a room 1 °C too warm
closes the valve and a room 1.5 °C too cold opens it to at least 1 %. -/
theorem hysteresis_override_witness :
    (calculateDesiredValveOpening ⟨5, 1/250, 0, 0, 3/20, 40⟩ (some 22) (some 21)
      none HVACMode.heat 0 RoomPIDState.fresh).opening = 0 ∧
    1 ≤ (calculateDesiredValveOpening ⟨5, 1/250, 0, 0, 3/20, 40⟩ (some 20)
      (some (43/2)) none HVACMode.heat 0 RoomPIDState.fresh).opening :=
  ⟨(hysteresis_override_closed_or_min_open ⟨5, 1/250, 0, 0, 3/20, 40⟩ 22 21 none
      HVACMode.heat 0 RoomPIDState.fresh (by norm_num)).1 (by norm_num),
   (hysteresis_override_closed_or_min_open ⟨5, 1/250, 0, 0, 3/20, 40⟩ 20 (43/2) none
      HVACMode.heat 0 RoomPIDState.fresh (by norm_num)).2 (by norm_num) (by norm_num)⟩

/-- C2: for every sequence of compute calls starting from a fresh shared
`RoomPIDState`, when `ki > 0` the shared room `integral_error` stays within
`[-100/ki, 100/ki]` after each call (the bound holds for every prefix of a
call list, each prefix being itself a call list). -/
theorem integral_error_anti_windup_bound (cfg : ControllerConfig)
    (hki : 0 < cfg.ki) (calls : List CallInput) :
    |(runCalls cfg calls).integral_error| ≤ 100 / cfg.ki := by
  have hB : (0:ℚ) ≤ 100 / cfg.ki := by positivity
  unfold runCalls
  have gen : ∀ (l : List CallInput) (st : RoomPIDState),
      |st.integral_error| ≤ 100 / cfg.ki →
      |(l.foldl (applyCall cfg) st).integral_error| ≤ 100 / cfg.ki := by
    intro l
    induction l with
    | nil => intro st h; simpa using h
    | cons hd tl ih =>
      intro st h
      exact ih _ (integral_bound_step cfg hki hd st h)
  exact gen calls RoomPIDState.fresh (by simpa [RoomPIDState.fresh] using hB)

/-- Witness for C2: a concrete two-call sequence with the default gains stays
inside the anti-windup bound `100 / (1/250) = 25000`. -/
theorem integral_error_anti_windup_bound_witness :
    (0:ℚ) < 1/250 ∧
    |(runCalls ⟨5, 1/250, 0, 0, 3/20, 40⟩
        [⟨some 20, some (43/2), none, HVACMode.heat, 0⟩,
         ⟨some 20, some (43/2), none, HVACMode.heat, 60⟩]).integral_error|
      ≤ 100 / (1/250) :=
  ⟨by norm_num,
   integral_error_anti_windup_bound ⟨5, 1/250, 0, 0, 3/20, 40⟩ (by norm_num)
     [⟨some 20, some (43/2), none, HVACMode.heat, 0⟩,
      ⟨some 20, some (43/2), none, HVACMode.heat, 60⟩]⟩

/-- C3: every compute call with the current temperature absent, the target
temperature absent, or `max_valve_position = 0` returns opening 0 and leaves
the shared `RoomPIDState` (all four fields) unchanged. -/
theorem missing_input_returns_zero_no_mutation (cfg : ControllerConfig)
    (cur tgt out : Option ℚ) (mode : HVACMode) (now : ℚ) (st : RoomPIDState)
    (h : cur = none ∨ tgt = none ∨ cfg.max_valve_position = 0) :
    (calculateDesiredValveOpening cfg cur tgt out mode now st).opening = 0 ∧
    (calculateDesiredValveOpening cfg cur tgt out mode now st).state = st := by
  rcases h with h | h | h
  · subst h; simp [calculateDesiredValveOpening]
  · subst h; cases cur <;> simp [calculateDesiredValveOpening]
  · cases cur <;> cases tgt <;> simp [calculateDesiredValveOpening, h]

/-- Witness for C3: a call without a current temperature returns 0 and leaves
a non-trivial room state untouched. -/
theorem missing_input_returns_zero_no_mutation_witness :
    (calculateDesiredValveOpening ⟨5, 1/250, 0, 0, 3/20, 40⟩ none (some (43/2))
      none HVACMode.heat 7 ⟨3, 1, some 2, 50⟩).opening = 0 ∧
    (calculateDesiredValveOpening ⟨5, 1/250, 0, 0, 3/20, 40⟩ none (some (43/2))
      none HVACMode.heat 7 ⟨3, 1, some 2, 50⟩).state = ⟨3, 1, some 2, 50⟩ :=
  missing_input_returns_zero_no_mutation ⟨5, 1/250, 0, 0, 3/20, 40⟩ none
    (some (43/2)) none HVACMode.heat 7 ⟨3, 1, some 2, 50⟩ (Or.inl rfl)

/-- C4: for a new sensor sample with valid old and new values, the
sudden-drop detector triggers exactly when (a) `new - old ≤ -threshold`, or
(b) the maximum sample value within the trailing 300-second window of the
history exceeds `new` by at least the threshold (equivalently: some sample in
that window does, since the maximum is itself such a sample); and on trigger
the freeze is activated, its start time recorded as `now`, and the valve
opening commanded to 0. -/
theorem sudden_drop_trigger_iff_and_freeze (thr old new : ℚ)
    (hist : List TempSample) (now : ℚ) (ws : WindowState) :
    (suddenDropDetected thr old new hist now = true ↔
      (new - old ≤ -thr ∨
        ∃ s ∈ hist, now - windowDropWindow ≤ s.time ∧ thr ≤ s.value - new)) ∧
    (suddenDropDetected thr old new hist now = true →
      onSensorSample thr old new hist now ws =
        { window_freeze_active := true, window_freeze_start := some now,
          last_set_valve_opening := 0 }) := by
  constructor
  · unfold suddenDropDetected
    simp only [Bool.or_eq_true, decide_eq_true_eq]
    constructor
    · rintro (h | h)
      · exact Or.inl h
      · right
        rcases hm : ((hist.filter fun s => decide (now - windowDropWindow ≤ s.time)).map
            TempSample.value).max? with _ | m
        · rw [hm] at h; exact absurd h (by simp)
        · rw [hm] at h
          simp only [decide_eq_true_eq] at h
          obtain ⟨hmem, -⟩ := rat_max?_eq_some_iff.mp hm
          obtain ⟨s, hsf, hsv⟩ := List.mem_map.mp hmem
          obtain ⟨hs, hts⟩ := List.mem_filter.mp hsf
          exact ⟨s, hs, of_decide_eq_true hts, by rw [hsv]; linarith⟩
    · rintro (h | ⟨s, hs, ht, hv⟩)
      · exact Or.inl (by exact h)
      · right
        have hmem : s.value ∈
            (hist.filter fun s => decide (now - windowDropWindow ≤ s.time)).map
              TempSample.value :=
          List.mem_map.mpr ⟨s, List.mem_filter.mpr ⟨hs, decide_eq_true ht⟩, rfl⟩
        rcases hm : ((hist.filter fun s => decide (now - windowDropWindow ≤ s.time)).map
            TempSample.value).max? with _ | m
        · rw [List.max?_eq_none_iff] at hm
          rw [hm] at hmem
          exact absurd hmem (List.not_mem_nil _)
        · rw [hm]
          obtain ⟨-, hle⟩ := rat_max?_eq_some_iff.mp hm
          have := hle _ hmem
          simp only [decide_eq_true_eq]
          linarith
  · intro h
    unfold onSensorSample
    rw [if_pos h]
    by_cases hz : ws.last_set_valve_opening ≠ 0
    · simp [hz]
    · push_neg at hz
      simp [hz]

/-- Witness for C4: a single-step drop from 21 °C to 20 °C with the default
threshold 0.8 °C freezes control and closes the valve. -/
theorem sudden_drop_trigger_witness :
    onSensorSample (4/5) 21 20 [⟨21, 0⟩] 100 ⟨false, none, 37⟩ =
      { window_freeze_active := true, window_freeze_start := some 100,
        last_set_valve_opening := 0 } :=
  (sudden_drop_trigger_iff_and_freeze (4/5) 21 20 [⟨21, 0⟩] 100 ⟨false, none, 37⟩).2
    ((sudden_drop_trigger_iff_and_freeze (4/5) 21 20 [⟨21, 0⟩] 100
      ⟨false, none, 37⟩).1.mpr (Or.inl (by norm_num)))

/-- C5: with target 21.5, current 20, hysteresis 0.15, kp 5, ki 0.004,
kd 0, ka 0, `max_valve_position` 40 and a fresh room state, the first call
(so `dt = 0`) yields `p = 5 * 1.7 * 1.5 = 12.75` (gain-scale band for
`|error| = 1.5` is 1.7), `i = 0`, and `opening = ⌊12.75/100 * 40⌋ = 5`. -/
theorem first_call_scenario_values :
    (calculateDesiredValveOpening ⟨5, 1/250, 0, 0, 3/20, 40⟩ (some 20)
      (some (43/2)) none HVACMode.heat 0 RoomPIDState.fresh).p
        = 5 * (17/10) * (3/2) ∧
    (calculateDesiredValveOpening ⟨5, 1/250, 0, 0, 3/20, 40⟩ (some 20)
      (some (43/2)) none HVACMode.heat 0 RoomPIDState.fresh).i = 0 ∧
    (calculateDesiredValveOpening ⟨5, 1/250, 0, 0, 3/20, 40⟩ (some 20)
      (some (43/2)) none HVACMode.heat 0 RoomPIDState.fresh).opening = 5 := by
  norm_num [calculateDesiredValveOpening, calcDt, pTerm, effectiveKp, gainScale,
    dTerm, ffTerm, integralStep, RoomPIDState.fresh, abs_of_pos, Int.floor_eq_iff]

/-- C6 counterexample: a call with `ki = 0` (so the integral update is
skipped) in which the error sign flips relative to `prev_error` resets the
shared `integral_error` from 5 to 0 — the claim that the integral is left
unchanged by such a call is false. -/
theorem integral_changed_when_skipped_counterexample :
    (calculateDesiredValveOpening ⟨5, 0, 0, 0, 3/20, 40⟩ (some 22) (some 21) none
      HVACMode.heat 10 ⟨5, 1, some 0, 0⟩).state.integral_error = 0 ∧
    (calculateDesiredValveOpening ⟨5, 0, 0, 0, 3/20, 40⟩ (some 22) (some 21) none
      HVACMode.heat 10 ⟨5, 1, some 0, 0⟩).state.integral_error ≠ (5:ℚ) := by
  norm_num [calculateDesiredValveOpening, calcDt, pTerm, effectiveKp, gainScale,
    dTerm, ffTerm, integralStep, abs_of_pos, Int.floor_eq_iff]

/-- C6 amended: when the integral update is skipped (`dt` outside `(0,3600)`,
mode not Heat, or `ki = 0`), the shared `integral_error` is left unchanged by
the call unless the error sign flips relative to `prev_error`
(`error * prev_error < 0`), in which case it is reset to 0; the P, D and FF
terms are still computed as usual. -/
theorem integral_skip_frame_with_sign_flip_reset (cfg : ControllerConfig)
    (c t : ℚ) (out : Option ℚ) (mode : HVACMode) (now : ℚ) (st : RoomPIDState)
    (h0 : cfg.max_valve_position ≠ 0)
    (hskip : calcDt st now ≤ 0 ∨ 3600 ≤ calcDt st now ∨ mode ≠ HVACMode.heat ∨
      cfg.ki = 0) :
    (calculateDesiredValveOpening cfg (some c) (some t) out mode now st).state.integral_error
      = (if (t - c) * st.prev_error < 0 then 0 else st.integral_error) ∧
    (calculateDesiredValveOpening cfg (some c) (some t) out mode now st).p
      = pTerm cfg.kp (t - c) ∧
    (calculateDesiredValveOpening cfg (some c) (some t) out mode now st).d
      = dTerm cfg.kd (calcDt st now) (t - c) st.prev_error ∧
    (calculateDesiredValveOpening cfg (some c) (some t) out mode now st).ff
      = ffTerm cfg.ka t out := by
  have hact : ¬ (calcDt st now > 0 ∧ calcDt st now < 3600 ∧
      mode = HVACMode.heat ∧ cfg.ki > 0) := by
    rintro ⟨h1, h2, h3, h4⟩
    rcases hskip with h | h | h | h
    · linarith
    · linarith
    · exact h h3
    · rw [h] at h4; exact lt_irrefl 0 h4
  simp only [calculateDesiredValveOpening, if_neg h0, if_neg hact]
  refine ⟨?_, trivial, trivial, trivial⟩
  split <;> rfl

/-- Witness for C6 amended: at the counterexample input (skip via `ki = 0`,
sign flip from 1 to −1) the amended statement evaluates the integral to 0. -/
theorem integral_skip_frame_witness :
    (calculateDesiredValveOpening ⟨5, 0, 0, 0, 3/20, 40⟩ (some 22) (some 21) none
      HVACMode.heat 10 ⟨5, 1, some 0, 0⟩).state.integral_error = 0 := by
  have h := (integral_skip_frame_with_sign_flip_reset ⟨5, 0, 0, 0, 3/20, 40⟩ 22 21
    none HVACMode.heat 10 ⟨5, 1, some 0, 0⟩ (by norm_num)
    (Or.inr (Or.inr (Or.inr rfl)))).1
  rw [h, if_pos (by norm_num)]

/-- C7 counterexample: with a current temperature of 0.0 °C and a target of
0.1 °C (difference 0.1 < 0.2), not exercising, PID mode and base interval
600 s, the scheduler picks 600 s and not 1800 s — Python truthiness
(`if (self._attr_current_temperature and ...)`) treats the value `0.0` as
absent, so the claim's "exactly when |target - current| < 0.2 …" is false. -/
theorem stable_interval_truthiness_counterexample :
    nextUpdateInterval (some 0) (some (1/10)) false ControlMode.pid 600 = 600 ∧
    |(1/10 : ℚ) - 0| < 1/5 ∧ (600 : ℕ) ≠ 1800 := by
  refine ⟨?_, by norm_num [abs_of_pos], by norm_num⟩
  norm_num [nextUpdateInterval, truthy]

/-- C7 amended: when the base interval is not itself 1800 s, the next control
interval is 1800 s exactly when the current and target temperatures are both
present and non-zero (Python truthiness), `|target - current| < 0.2`, the
controller is not exercising and the control mode is PID; in every case the
interval is either 1800 s or the configured base interval. -/
theorem stable_interval_iff_truthy_stable_pid (cur tgt : Option ℚ) (ex : Bool)
    (mode : ControlMode) (base : ℕ) (hbase : base ≠ 1800) :
    (nextUpdateInterval cur tgt ex mode base = 1800 ↔
      ∃ c t, cur = some c ∧ tgt = some t ∧ c ≠ 0 ∧ t ≠ 0 ∧ |t - c| < 1/5 ∧
        ex = false ∧ mode = ControlMode.pid) ∧
    (nextUpdateInterval cur tgt ex mode base = 1800 ∨
      nextUpdateInterval cur tgt ex mode base = base) := by
  unfold nextUpdateInterval truthy
  constructor
  · cases cur with
    | none => simp [hbase]
    | some c =>
      cases tgt with
      | none => simp [hbase]
      | some t =>
        simp only [Option.getD_some, Bool.and_eq_true, decide_eq_true_eq,
          Bool.not_eq_true', decide_eq_true_eq]
        constructor
        · intro h
          split_ifs at h with h1 h2
          · rcases h1 with ⟨⟨⟨hc, ht⟩, habs⟩, hex⟩
            exact ⟨c, t, rfl, rfl, hc, ht, habs, hex, h2⟩
          · exact absurd h hbase
          · exact absurd h hbase
        · rintro ⟨c', t', hc', ht', hcz, htz, habs, hex, hmode⟩
          obtain rfl : c = c' := by injection hc'
          obtain rfl : t = t' := by injection ht'
          rw [if_pos ⟨⟨⟨hcz, htz⟩, habs⟩, hex⟩, if_pos hmode]
  · split_ifs <;> simp

/-- Witness for C7 amended: a stable room (20 °C at target 20.1 °C) in PID
mode with base interval 600 s relaxes to 1800 s. -/
theorem stable_interval_witness :
    nextUpdateInterval (some 20) (some (201/10)) false ControlMode.pid 600 = 1800 :=
  (stable_interval_iff_truthy_stable_pid (some 20) (some (201/10)) false
    ControlMode.pid 600 (by norm_num)).1.mpr
    ⟨20, 201/10, rfl, rfl, by norm_num, by norm_num, by norm_num [abs_of_pos],
      rfl, rfl⟩

/-- C8: evaluation of the code at the failing input — a persisted integral of
500 is restored into the entity-local `_integral_error` field, yet the next
compute call bases its i-term on the shared room integral (0, not 500) and
overwrites the restored local value with 0: the restored integral never
enters the PID computation, contradicting the warm-restart intent. -/
theorem restored_integral_never_enters_pid :
    (restoreIntegral EntityPidView.fresh 500).integral_error = 500 ∧
    (entityCompute ⟨5, 1/250, 0, 0, 3/20, 40⟩ (some 20) (some (43/2)) none
      HVACMode.heat 0 (restoreIntegral EntityPidView.fresh 500)).1.i = 0 ∧
    (entityCompute ⟨5, 1/250, 0, 0, 3/20, 40⟩ (some 20) (some (43/2)) none
      HVACMode.heat 0 (restoreIntegral EntityPidView.fresh 500)).2.integral_error
      = 0 := by
  refine ⟨rfl, ?_, ?_⟩ <;>
    norm_num [entityCompute, restoreIntegral, EntityPidView.fresh,
      RoomPIDState.fresh, calculateDesiredValveOpening, calcDt, pTerm,
      effectiveKp, gainScale, dTerm, ffTerm, integralStep, abs_of_pos]

/-- C9: a full run of the exercise sequence from Idle (trigger, close, restore)
ends with `is_exercising = false`, with the last applied valve opening equal
to the `original_position` captured on entry (which the TRV reports within
`[0,100]`), and with the captured original preset re-applied. -/
theorem exercise_restores_original_position (s : ExerciseState)
    (hidle : s.is_exercising = false)
    (h0 : 0 ≤ s.valve_position) (h1 : s.valve_position ≤ 100) :
    (runExercise s).is_exercising = false ∧
    (runExercise s).last_set_valve_opening = s.valve_position ∧
    (runExercise s).preset_mode = s.preset_mode := by
  unfold runExercise triggerValveExercise exerciseStep2 exerciseStep3 setValveOpening
  rw [if_neg (by rw [hidle]; exact Bool.false_ne_true)]
  refine ⟨rfl, ?_, rfl⟩
  simp only
  omega

/-- Witness for C9: an idle controller at position 37 % with preset 3 is
restored to exactly that position and preset after a full exercise run. -/
theorem exercise_restores_original_position_witness :
    (runExercise ⟨false, 37, 3, 22⟩).is_exercising = false ∧
    (runExercise ⟨false, 37, 3, 22⟩).last_set_valve_opening = 37 ∧
    (runExercise ⟨false, 37, 3, 22⟩).preset_mode = 3 :=
  exercise_restores_original_position ⟨false, 37, 3, 22⟩ rfl (by norm_num)
    (by norm_num)

/-- C10: the Smart-Start preload writes only the entity-local
`_integral_error` and leaves the shared room state unchanged; a compute call
ignores the entity-local field entirely (identical results for any two local
values over the same room state) and overwrites it with the updated room
integral, so a preloaded value never enters the room-level PID computation. -/
theorem smart_start_preload_room_frame (e : EntityPidView) (cur : Option ℚ)
    (newTarget : ℚ) (cmode : ControlMode) (ki : ℚ) (cfg : ControllerConfig)
    (current target outside : Option ℚ) (mode : HVACMode) (now : ℚ)
    (x y : ℚ) (rm : RoomPIDState) :
    (smartStartPreload e cur newTarget cmode ki).room = e.room ∧
    entityCompute cfg current target outside mode now ⟨x, rm⟩ =
      entityCompute cfg current target outside mode now ⟨y, rm⟩ ∧
    (entityCompute cfg current target outside mode now e).2.integral_error =
      (entityCompute cfg current target outside mode now e).1.state.integral_error := by
  refine ⟨?_, rfl, rfl⟩
  unfold smartStartPreload
  dsimp only
  split_ifs <;> rfl

end SonClouTRV
